import Mathlib

/-!
Shallow embedding of `src/agent/lambda/agent-handler/lambda_function.py`.

The handler bridges a Lex v2 dialog event to either an LLM-backed agent
(non-empty transcript) or a Kendra-search-grounded LLM call (empty
transcript).  External collaborators (the langchain agent, the Kendra
client, the Bedrock runtime client) are modelled as oracle functions
passed in as parameters; every outbound call the code makes is recorded
in an explicit trace so that theorems can speak about the arguments of
those calls.  Python strings are Lean `String`s; Python `None` and the
dynamic typing of `response_text` are modelled by explicit sum types.
JSON numbers are `Rat` (the body uses 0.5).  The `os.environ['TZ']` /
`time.tzset()` global mutation is process state outside the data flow
and is not modelled.
-/

/-- Python string method `str.startswith`, via the character list. -/
def pyStartsWith (s p : String) : Bool :=
  p.data.isPrefixOf s.data

/-- Python string method `str.removeprefix`: drop `p` from the front of `s`
when `s` starts with it, otherwise return `s` unchanged. -/
def pyRemovePrefix (s p : String) : String :=
  if p.data.isPrefixOf s.data then ⟨s.data.drop p.data.length⟩ else s

/-- Python string method `str.removesuffix`: drop `p` from the end of `s`
when `s` ends with it, otherwise return `s` unchanged. -/
def pyRemoveSuffix (s p : String) : String :=
  if p.data.isSuffixOf s.data then ⟨s.data.take (s.data.length - p.data.length)⟩ else s

/-- The `intent` object inside `event['sessionState']`; the handler only
ever reads it whole and mutates its `state` field. -/
structure Intent where
  name : String
  state : String
deriving DecidableEq, Repr

/-- `event['sessionState']`: optional session attributes and the intent. -/
structure SessionState where
  sessionAttributes : Option (List (String × String))
  intent : Intent
deriving DecidableEq, Repr

/-- The inbound Lex v2 event, with the fields the handler reads. -/
structure Event where
  inputTranscript : String
  invocationSource : String
  sessionState : SessionState
  sessionId : String
  requestAttributes : Option (List (String × String))
deriving DecidableEq, Repr

/-- A button of the image response card in `elicit_intent`. -/
structure Button where
  text : String
  value : String
deriving DecidableEq, Repr

/-- The `imageResponseCard` object in `elicit_intent`. -/
structure ImageResponseCard where
  buttons : List Button
  title : String
deriving DecidableEq, Repr

/-- A message block of the `elicit_intent` response: either a plain-text
block (`contentType: PlainText` with a string content) or an image
response card block (`contentType: ImageResponseCard`). -/
inductive ElicitMessage where
  | plainText (content : String)
  | imageCard (card : ImageResponseCard)
deriving DecidableEq, Repr

/-- The dict built by `elicit_intent`. -/
structure ElicitResponse where
  dialogActionType : String
  sessionAttributes : List (String × String)
  messages : List ElicitMessage
deriving DecidableEq, Repr

/-- The dynamically-typed value that ends up in `response_text` and hence
in the single message's `content` of `lex_format_response`: a string
(search path), Python `None`, or the whole `elicit_intent` dict
(assistant path). -/
inductive RText where
  | str (s : String)
  | null
  | elicitResp (r : ElicitResponse)
deriving DecidableEq, Repr

/-- A message block of the final envelope built by `lex_format_response`. -/
structure FinalMessage where
  contentType : String
  content : RText
deriving DecidableEq, Repr

/-- The envelope returned by `lex_format_response`. -/
structure LexResponse where
  sessionAttributes : List (String × String)
  dialogActionType : String
  intent : Intent
  messages : List FinalMessage
  sessionId : String
  requestAttributes : Option (List (String × String))
deriving DecidableEq, Repr

/-- A Python exception raised by a collaborator: a `ValueError` (the only
class the assistant path catches) or any other exception class, each
carrying its `str(e)` message. -/
inductive PyError where
  | valueError (msg : String)
  | otherError (msg : String)
deriving DecidableEq, Repr

/-- `str(e)` of a modelled Python exception. -/
def PyError.message : PyError → String
  | .valueError m => m
  | .otherError m => m

/-- A JSON value of the serialized Bedrock request body.  The program
only ever puts strings, numbers and the empty string-list
(`stop_sequences`) in it. -/
inductive JVal where
  | jstr (s : String)
  | jnum (q : Rat)
  | jarr (xs : List String)
deriving DecidableEq, Repr

/-- The arguments of the `kendra.retrieve(...)` call. -/
structure KendraCall where
  indexId : String
  queryText : String
  pageNumber : Nat
  pageSize : Nat
deriving DecidableEq, Repr

/-- The arguments of the `bedrock.invoke_model(...)` call; `body` is the
`json.dumps` payload as an ordered field list (Python dicts preserve
insertion order and `json.dumps` serializes in that order). -/
structure BedrockRequest where
  body : List (String × JVal)
  modelId : String
  accept : String
  contentType : String
deriving DecidableEq, Repr

/-- One outbound network call made during an invocation, recorded in
order. -/
inductive ExtCall where
  | agentRun (prompt : String)
  | kendraRetrieve (c : KendraCall)
  | bedrockInvoke (r : BedrockRequest)
deriving DecidableEq, Repr

/-- Oracle for `lex_agent.run(input=...)`: the langchain agent either
returns a text answer or raises. -/
def AgentOracle := String → Except PyError String

/-- Oracle for `kendra.retrieve(...)`: the retrieval response object,
modelled by the string it interpolates to in the prompt f-string. -/
def KendraOracle := KendraCall → String

/-- Oracle for `bedrock.invoke_model(...)` composed with
`json.loads(response.get('body').read())`: either a raised error (network
or JSON decode) or the parsed JSON body.  The parsed body is modelled as
an association list of string fields (the `completion` field is text). -/
def BedrockOracle := BedrockRequest → Except PyError (List (String × String))

/-- `lex_format_response(event, response_text)`: sets the intent state to
"Fulfilled" and wraps `response_text` in a Close envelope with a single
PlainText message block. -/
def lex_format_response (event : Event) (response_text : RText) : LexResponse :=
  let intent := { event.sessionState.intent with state := "Fulfilled" }
  { sessionAttributes := [("history", "none")]
    dialogActionType := "Close"
    intent := intent
    messages := [{ contentType := "PlainText", content := response_text }]
    sessionId := event.sessionId
    requestAttributes := event.requestAttributes }

/-- `elicit_intent(intent_request, session_attributes, message)`: an
ElicitIntent response with a plain-text block and a fixed three-button
image response card. -/
def elicit_intent (_intent_request : Event) (session_attributes : List (String × String))
    (message : String) : ElicitResponse :=
  { dialogActionType := "ElicitIntent"
    sessionAttributes := session_attributes
    messages :=
      [ .plainText message
      , .imageCard
          { buttons :=
              [ { text := "Loan Application", value := "Loan Application" }
              , { text := "Loan Calculator", value := "Loan Calculator" }
              , { text := "Ask GenAI", value := "What kind of questions can the Assistant answer?" } ]
            title := "How can I help you?" } ] }

/-- `invoke_fm(prompt)`: formats the two-turn prompt, runs the agent, and
converts a `ValueError` whose message starts with
"Could not parse LLM output:" into a best-effort answer by stripping the
prefix "Could not parse LLM output: \x60" and a trailing backtick; any
other failure is re-raised.  Returns the result and the outbound calls. -/
def invoke_fm (agent : AgentOracle) (prompt : String) :
    Except PyError String × List ExtCall :=
  let formatted_prompt := "\n\nHuman: " ++ prompt ++ " \n\nAssistant:"
  let result : Except PyError String :=
    match agent formatted_prompt with
    | .ok message => .ok message
    | .error (.valueError e) =>
        let message := e
        if ¬ pyStartsWith message "Could not parse LLM output:" then
          .error (.valueError e)
        else
          .ok (pyRemoveSuffix (pyRemovePrefix message "Could not parse LLM output: `") "`")
    | .error e => .error e
  (result, [.agentRun formatted_prompt])

/-- `genai_intent(intent_request)`: on `invocationSource == 'DialogCodeHook'`
extracts the transcript, calls `invoke_fm`, and wraps the output via
`elicit_intent`; otherwise falls off the end (Python implicit `None`). -/
def genai_intent (agent : AgentOracle) (intent_request : Event) :
    Except PyError (Option ElicitResponse) × List ExtCall :=
  let session_attributes := intent_request.sessionState.sessionAttributes.getD []
  if intent_request.invocationSource = "DialogCodeHook" then
    let prompt := intent_request.inputTranscript
    match invoke_fm agent prompt with
    | (.ok output, calls) =>
        (.ok (some (elicit_intent intent_request session_attributes output)), calls)
    | (.error e, calls) => (.error e, calls)
  else
    (.ok none, [])

/-- The f-string `prompt_data` of `invoke_llm`, with the question and the
Kendra response interpolated (both already strings at this call site). -/
def prompt_data (intent_request kendra_response : String) : String :=
  "\n\nHuman:    \n" ++
  "Answer the following question in a manner andonly if it can be answered from the Kendra index created.\n" ++
  "Do not include information that is not relevant to the question.\n" ++
  "Only provide information based on the data available with you and do not make assumptions\n" ++
  "Avoid all the non related questions to Echo business\n" ++
  "Use the provided examples as reference\n" ++
  "###\n" ++
  "Here is an example\n" ++
  "<example>\n" ++
  "Question: What is Kendra\n" ++
  "Assistant: I dont know\n" ++
  "</example>\n" ++
  "###\n" ++
  "###\n" ++
  "Here is an example\n" ++
  "<example>\n" ++
  "Question: Give me the list of all available wiki documents?\n" ++
  "Assistant: Sure, Let me search and collect the information\n" ++
  "</example>\n" ++
  "###\n" ++
  "###\n" ++
  "Here is an example\n" ++
  "<example>\n" ++
  "Question: How many different documents do you have?\n" ++
  "Assistant: 500+\n" ++
  "</example>\n" ++
  "###\n" ++
  "Question: How many different authors do you find?\n" ++
  "Assistant: I dont know\n" ++
  "\n" ++
  "Question: " ++ intent_request ++ "\n" ++
  "\n" ++
  "Context: " ++ kendra_response ++ "\n" ++
  "\n" ++
  "###\n" ++
  "\n" ++
  "\n\nAssistant:\n" ++
  "\n"

/-- The `json.dumps` body of `invoke_llm` for a given prompt, as the
ordered field list of the serialized object. -/
def invoke_llm_body (p : String) : List (String × JVal) :=
  [ ("prompt", .jstr p)
  , ("max_tokens_to_sample", .jnum 8191)
  , ("temperature", .jnum 0)
  , ("top_k", .jnum 250)
  , ("top_p", .jnum (1/2))
  , ("stop_sequences", .jarr []) ]

/-- The full `bedrock.invoke_model` request of `invoke_llm`. -/
def invoke_llm_request (intent_request kendra_response : String) : BedrockRequest :=
  { body := invoke_llm_body (prompt_data intent_request kendra_response)
    modelId := "anthropic.claude-v2"
    accept := "application/json"
    contentType := "application/json" }

/-- `invoke_llm(intent_request, kendra_response)`: builds the grounded
prompt and body, invokes the model, parses the JSON body and extracts the
`completion` field via `dict.get` (absent field gives Python `None`,
modelled as `Option.none`, not an error). -/
def invoke_llm (bedrock : BedrockOracle) (intent_request kendra_response : String) :
    Except PyError (Option String) × List ExtCall :=
  let req := invoke_llm_request intent_request kendra_response
  let result : Except PyError (Option String) :=
    match bedrock req with
    | .error e => .error e
    | .ok response_body =>
        let answer := (response_body.lookup "completion")
        .ok answer
  (result, [.bedrockInvoke req])

/-- The fixed `kendra.retrieve` call of `kendra_search`. -/
def kendra_search_call : KendraCall :=
  { indexId := "823fed26-38f9-490a-bdfc-d89e19f95a63"
    queryText := "get me wiki"
    pageNumber := 1
    pageSize := 15 }

/-- `kendra_search(intent_request)`: retrieves from the fixed index with
the fixed literal query, then hands the response to `invoke_llm`.  At its
only call site the argument is the (empty) transcript string. -/
def kendra_search (kendra : KendraOracle) (bedrock : BedrockOracle)
    (intent_request : String) : Except PyError (Option String) × List ExtCall :=
  let kendra_response := kendra kendra_search_call
  let (r, calls) := invoke_llm bedrock intent_request kendra_response
  (r, .kendraRetrieve kendra_search_call :: calls)

/-- `handler(event, context)`: routes on whether `inputTranscript` is the
empty string, then wraps whatever the chosen path returned (a string or
`None` from the search path, the `elicit_intent` dict or `None` from the
assistant path) in `lex_format_response`. -/
def handler (agent : AgentOracle) (kendra : KendraOracle) (bedrock : BedrockOracle)
    (event : Event) : Except PyError LexResponse × List ExtCall :=
  let user_input := event.inputTranscript
  if user_input = "" then
    match kendra_search kendra bedrock user_input with
    | (.ok answer, calls) =>
        let response_text : RText := match answer with
          | some s => .str s
          | none => .null
        (.ok (lex_format_response event response_text), calls)
    | (.error e, calls) => (.error e, calls)
  else
    match genai_intent agent event with
    | (.ok output, calls) =>
        let response_text : RText := match output with
          | some r => .elicitResp r
          | none => .null
        (.ok (lex_format_response event response_text), calls)
    | (.error e, calls) => (.error e, calls)

/-!  ## String helper lemmas for the Python string methods  -/

theorem pyStartsWith_append (p s : String) : pyStartsWith (p ++ s) p = true := by
  simp [pyStartsWith, List.isPrefixOf_iff_prefix]

theorem pyRemovePrefix_append (p s : String) : pyRemovePrefix (p ++ s) p = s := by
  have h : p.data.isPrefixOf (p ++ s).data = true := by
    simp [ List.isPrefixOf_iff_prefix]
  have hd : (p ++ s).data.drop p.data.length = s.data := List.drop_left p.data s.data
  simp [pyRemovePrefix, h, hd]

theorem pyRemoveSuffix_append (s q : String) : pyRemoveSuffix (s ++ q) q = s := by
  have h : q.data.isSuffixOf (s ++ q).data = true := by
    simp [ List.isSuffixOf_iff_suffix]
  have hl : (s ++ q).data.length - q.data.length = s.data.length := by
    show (s.data ++ q.data).length - q.data.length = s.data.length
    simp
  have ht : (s ++ q).data.take ((s ++ q).data.length - q.data.length) = s.data := by
    rw [hl]; exact List.take_left s.data q.data
  simp [pyRemoveSuffix, h, ht]

/-!  ## Modelled Python rendering of the event (used only to state what
interpolating the whole event object into the prompt would give)  -/

/-- Python `repr` of a string, as it appears inside `str()` of a dict
(quote escaping is not needed for the values used here). -/
def pyQuote (s : String) : String := "'" ++ s ++ "'"

/-- Python `str()` of a string-to-string dict. -/
def pyStrPairs (l : List (String × String)) : String :=
  "\x7b" ++ String.intercalate ", " (l.map fun kv => pyQuote kv.1 ++ ": " ++ pyQuote kv.2) ++ "\x7d"

/-- Python `str()` of an optional dict field (`None` when absent). -/
def pyStrOptPairs : Option (List (String × String)) → String
  | none => "None"
  | some l => pyStrPairs l

/-- Modelled from the source data model: the Python `str()` rendering of
the whole event dict, i.e. the text that the f-string interpolation
`Question: {intent_request}` would produce had the event object (and not
the extracted transcript string) been passed into the search path. -/
def pyStrEvent (e : Event) : String :=
  "\x7b" ++ pyQuote "inputTranscript" ++ ": " ++ pyQuote e.inputTranscript ++ ", " ++
  pyQuote "invocationSource" ++ ": " ++ pyQuote e.invocationSource ++ ", " ++
  pyQuote "sessionState" ++ ": \x7b" ++
    pyQuote "sessionAttributes" ++ ": " ++ pyStrOptPairs e.sessionState.sessionAttributes ++ ", " ++
    pyQuote "intent" ++ ": \x7b" ++
      pyQuote "name" ++ ": " ++ pyQuote e.sessionState.intent.name ++ ", " ++
      pyQuote "state" ++ ": " ++ pyQuote e.sessionState.intent.state ++ "\x7d\x7d, " ++
  pyQuote "sessionId" ++ ": " ++ pyQuote e.sessionId ++ ", " ++
  pyQuote "requestAttributes" ++ ": " ++ pyStrOptPairs e.requestAttributes ++ "\x7d"

/-!  ## Concrete sample data used by witnesses and counterexamples  -/

/-- A concrete intent as Lex would send it for the fallback intent. -/
def sampleIntent : Intent := { name := "FallbackIntent", state := "InProgress" }

/-- A concrete dialog-code-hook event with a non-empty transcript. -/
def sampleEvent : Event :=
  { inputTranscript := "What is my loan balance?"
    invocationSource := "DialogCodeHook"
    sessionState := { sessionAttributes := some [("k", "v")], intent := sampleIntent }
    sessionId := "session-1"
    requestAttributes := none }

/-- The same event with an empty transcript (search-path trigger). -/
def emptyEvent : Event := { sampleEvent with inputTranscript := "" }

/-- The sample event with an invocation source other than the dialog code
hook. -/
def fulfillmentEvent : Event := { sampleEvent with invocationSource := "FulfillmentCodeHook" }

/-- A mock agent that answers "42" to everything. -/
def agent42 : AgentOracle := fun _ => .ok "42"

/-- A mock Kendra client whose response object renders as "CTX". -/
def kendraCtx : KendraOracle := fun _ => "CTX"

/-- A mock Bedrock client whose parsed JSON body is
`{"completion": "I dont know"}`. -/
def bedrockKnow : BedrockOracle := fun _ => .ok [("completion", "I dont know")]

/-- A mock Bedrock client whose parsed JSON body has no "completion"
field. -/
def bedrockBare : BedrockOracle := fun _ => .ok []

/-!  ## Claim theorems  -/

/-- C8: Every elicit-intent response contains exactly two message blocks:
one plain-text block carrying the given message, and one
image-response-card block with exactly three buttons whose texts appear
in the fixed order "Loan Application", "Loan Calculator", "Ask GenAI". -/
theorem c8_elicit_intent_blocks (e : Event) (sa : List (String × String)) (msg : String) :
    (elicit_intent e sa msg).messages =
      [ ElicitMessage.plainText msg
      , ElicitMessage.imageCard
          { buttons :=
              [ { text := "Loan Application", value := "Loan Application" }
              , { text := "Loan Calculator", value := "Loan Calculator" }
              , { text := "Ask GenAI", value := "What kind of questions can the Assistant answer?" } ]
            title := "How can I help you?" } ] ∧
    ((elicit_intent e sa msg).messages.map
        (fun m => match m with
          | .plainText _ => "PlainText"
          | .imageCard c => String.intercalate "|" (c.buttons.map Button.text))) =
      ["PlainText", "Loan Application|Loan Calculator|Ask GenAI"] := by
  exact ⟨rfl, rfl⟩

/-- C9: For every input prompt, the request body serialized for the
direct (search-path) LLM call contains exactly the sampling parameters
temperature 0, top_k 250, top_p 0.5, max_tokens_to_sample 8191, and an
empty stop_sequences list, alongside the prompt. -/
theorem c9_invoke_llm_body (bedrock : BedrockOracle) (ir kr : String) :
    (invoke_llm bedrock ir kr).2 =
      [ ExtCall.bedrockInvoke
          { body :=
              [ ("prompt", JVal.jstr (prompt_data ir kr))
              , ("max_tokens_to_sample", JVal.jnum 8191)
              , ("temperature", JVal.jnum 0)
              , ("top_k", JVal.jnum 250)
              , ("top_p", JVal.jnum (1/2))
              , ("stop_sequences", JVal.jarr []) ]
            modelId := "anthropic.claude-v2"
            accept := "application/json"
            contentType := "application/json" } ] := rfl

/-- C10: For every input event with a non-empty inputTranscript whose
invocationSource is not 'DialogCodeHook', the handler does not fail and
makes no outbound call: it returns a closed, fulfilled envelope whose
single plain-text message has a null content value. -/
theorem c10_non_dialog_hook (agent : AgentOracle) (kendra : KendraOracle)
    (bedrock : BedrockOracle) (e : Event)
    (h1 : e.inputTranscript ≠ "") (h2 : e.invocationSource ≠ "DialogCodeHook") :
    handler agent kendra bedrock e = (.ok (lex_format_response e RText.null), []) ∧
    (lex_format_response e RText.null).dialogActionType = "Close" ∧
    (lex_format_response e RText.null).intent.state = "Fulfilled" ∧
    (lex_format_response e RText.null).messages =
      [{ contentType := "PlainText", content := RText.null }] := by
  refine ⟨?_, rfl, rfl, rfl⟩
  simp [handler, genai_intent, h1, h2]

/-- Witness for C10 at a concrete fulfillment-hook event. -/
theorem c10_witness :
    handler agent42 kendraCtx bedrockKnow fulfillmentEvent =
      (.ok (lex_format_response fulfillmentEvent RText.null), []) :=
  (c10_non_dialog_hook agent42 kendraCtx bedrockKnow fulfillmentEvent
    (by decide) (by decide)).1

/-- C6: For every input event where the transcript is non-empty and the
invocation source equals 'DialogCodeHook', whenever the handler produces
an output envelope, that envelope has sessionState.intent.state equal to
"Fulfilled" and its messages list contains exactly one plain-text message
block. -/
theorem c6_fulfilled_single_message (agent : AgentOracle) (kendra : KendraOracle)
    (bedrock : BedrockOracle) (e : Event) (env : LexResponse)
    (h1 : e.inputTranscript ≠ "") (h2 : e.invocationSource = "DialogCodeHook")
    (h : (handler agent kendra bedrock e).1 = .ok env) :
    env.intent.state = "Fulfilled" ∧
    env.messages.map FinalMessage.contentType = ["PlainText"] := by
  cases ha : agent ("\n\nHuman: " ++ e.inputTranscript ++ " \n\nAssistant:") with
  | ok msg =>
    simp [handler, genai_intent, invoke_fm, h1, h2, ha] at h
    simp [← h, lex_format_response]
  | error err =>
    cases err with
    | valueError m =>
      by_cases hs : pyStartsWith m "Could not parse LLM output:" = true
      · simp [handler, genai_intent, invoke_fm, h1, h2, ha, hs] at h
        simp [← h, lex_format_response]
      · simp [handler, genai_intent, invoke_fm, h1, h2, ha, hs] at h
    | otherError m =>
      simp [handler, genai_intent, invoke_fm, h1, h2, ha] at h

/-- Witness for C6 at a concrete dialog-code-hook event with the mock
agent answering "42". -/
theorem c6_witness :
    (lex_format_response sampleEvent
        (RText.elicitResp (elicit_intent sampleEvent [("k", "v")] "42"))).intent.state =
      "Fulfilled" ∧
    (lex_format_response sampleEvent
        (RText.elicitResp (elicit_intent sampleEvent [("k", "v")] "42"))).messages.map
        FinalMessage.contentType = ["PlainText"] :=
  c6_fulfilled_single_message agent42 kendraCtx bedrockKnow sampleEvent
    (lex_format_response sampleEvent
      (RText.elicitResp (elicit_intent sampleEvent [("k", "v")] "42")))
    (by decide) rfl rfl

/-- A mock agent that always raises the agent parse failure with answer
text "42" embedded. -/
def agentParseFail : AgentOracle :=
  fun _ => .error (.valueError "Could not parse LLM output: `42`")

/-- A mock agent that always raises a non-ValueError exception. -/
def agentBoom : AgentOracle := fun _ => .error (.otherError "boom")

/-- C4: In the assistant path, for every agent failure whose message is
exactly "Could not parse LLM output: \x60ANSWER\x60" (for any text
ANSWER), the failure is not propagated and the produced answer text
equals ANSWER, with the literal prefix and the trailing backtick
stripped. -/
theorem c4_parse_error_recovered (agent : AgentOracle) (prompt ans : String)
    (h : agent ("\n\nHuman: " ++ prompt ++ " \n\nAssistant:") =
      .error (.valueError ("Could not parse LLM output: `" ++ ans ++ "`"))) :
    (invoke_fm agent prompt).1 = .ok ans := by
  have hassoc : ("Could not parse LLM output: `" ++ ans ++ "`" : String) =
      "Could not parse LLM output: `" ++ (ans ++ "`") :=
    String.append_assoc _ _ _
  have hsplit : ("Could not parse LLM output: `" : String) =
      "Could not parse LLM output:" ++ " `" := by decide
  have hstart : pyStartsWith ("Could not parse LLM output: `" ++ ans ++ "`")
      "Could not parse LLM output:" = true := by
    rw [hassoc, hsplit, String.append_assoc]
    exact pyStartsWith_append _ _
  have hstrip :
      pyRemoveSuffix (pyRemovePrefix ("Could not parse LLM output: `" ++ ans ++ "`")
        "Could not parse LLM output: `") "`" = ans := by
    rw [hassoc, pyRemovePrefix_append]
    exact pyRemoveSuffix_append ans "`"
  simp [invoke_fm, h, hstart, hstrip]

/-- Witness for C4: the mock parse-failing agent yields the stripped
answer "42". -/
theorem c4_witness : (invoke_fm agentParseFail "hi").1 = .ok "42" :=
  c4_parse_error_recovered agentParseFail "hi" "42" rfl

/-- C5: In the assistant path, for every agent failure whose message does
not start with the literal prefix "Could not parse LLM output:", the
failure propagates unchanged to the caller and no envelope is produced
for that invocation. -/
theorem c5_other_failures_propagate (agent : AgentOracle) (kendra : KendraOracle)
    (bedrock : BedrockOracle) (e : Event) (err : PyError)
    (h1 : e.inputTranscript ≠ "") (h2 : e.invocationSource = "DialogCodeHook")
    (ha : agent ("\n\nHuman: " ++ e.inputTranscript ++ " \n\nAssistant:") = .error err)
    (hp : pyStartsWith err.message "Could not parse LLM output:" = false) :
    (handler agent kendra bedrock e).1 = .error err := by
  cases err with
  | valueError m =>
    simp only [PyError.message] at hp
    simp [handler, genai_intent, invoke_fm, h1, h2, ha, hp]
  | otherError m =>
    simp [handler, genai_intent, invoke_fm, h1, h2, ha]

/-- Witness for C5: the mock crashing agent's error is re-raised out of
the handler. -/
theorem c5_witness :
    (handler agentBoom kendraCtx bedrockKnow sampleEvent).1 = .error (.otherError "boom") :=
  c5_other_failures_propagate agentBoom kendraCtx bedrockKnow sampleEvent
    (.otherError "boom") (by decide) rfl rfl (by decide)

/-- C1 counterexample: at a concrete dialog-code-hook event with the mock
agent returning "42", the handler does call the agent with the formatted
prompt, but the single message's content is the nested elicit-intent
response object, not the text "42" the agent returned. -/
theorem c1_counterexample :
    (handler agent42 kendraCtx bedrockKnow sampleEvent).2 =
      [ExtCall.agentRun "\n\nHuman: What is my loan balance? \n\nAssistant:"] ∧
    (handler agent42 kendraCtx bedrockKnow sampleEvent).1 =
      .ok (lex_format_response sampleEvent
        (RText.elicitResp (elicit_intent sampleEvent [("k", "v")] "42"))) ∧
    (lex_format_response sampleEvent
        (RText.elicitResp (elicit_intent sampleEvent [("k", "v")] "42"))).messages.map
        FinalMessage.content =
      [RText.elicitResp (elicit_intent sampleEvent [("k", "v")] "42")] ∧
    RText.elicitResp (elicit_intent sampleEvent [("k", "v")] "42") ≠ RText.str "42" := by
  refine ⟨rfl, rfl, rfl, ?_⟩
  decide

/-- C1 (amended): for every invocation with a non-empty inputTranscript
and invocationSource 'DialogCodeHook', the handler calls the agent with
the prompt "\n\nHuman: " + transcript + " \n\nAssistant:", and the
returned envelope's single message has as its content the elicit-intent
response object whose own first message's content equals exactly the text
the agent returned, unmodified. -/
theorem c1_agent_prompt_and_nested_envelope (agent : AgentOracle) (kendra : KendraOracle)
    (bedrock : BedrockOracle) (e : Event) (ans : String)
    (h1 : e.inputTranscript ≠ "") (h2 : e.invocationSource = "DialogCodeHook")
    (ha : agent ("\n\nHuman: " ++ e.inputTranscript ++ " \n\nAssistant:") = .ok ans) :
    (handler agent kendra bedrock e).2 =
      [ExtCall.agentRun ("\n\nHuman: " ++ e.inputTranscript ++ " \n\nAssistant:")] ∧
    (handler agent kendra bedrock e).1 =
      .ok (lex_format_response e (RText.elicitResp
        (elicit_intent e (e.sessionState.sessionAttributes.getD []) ans))) ∧
    (elicit_intent e (e.sessionState.sessionAttributes.getD []) ans).messages.head? =
      some (ElicitMessage.plainText ans) := by
  refine ⟨?_, ?_, rfl⟩ <;>
    simp [handler, genai_intent, invoke_fm, h1, h2, ha]

/-- Witness for the amended C1 at the concrete sample event. -/
theorem c1_witness :
    (handler agent42 kendraCtx bedrockKnow sampleEvent).1 =
      .ok (lex_format_response sampleEvent
        (RText.elicitResp (elicit_intent sampleEvent
          (sampleEvent.sessionState.sessionAttributes.getD []) "42"))) :=
  (c1_agent_prompt_and_nested_envelope agent42 kendraCtx bedrockKnow sampleEvent "42"
    (by decide) rfl rfl).2.1

set_option maxRecDepth 100000 in
/-- C2 counterexample: at a concrete empty-transcript event, the question
value interpolated into the retrieval-grounded prompt is the extracted
transcript (the empty string), and the resulting request differs from the
one that interpolating the whole event object would produce. -/
theorem c2_counterexample :
    (handler agent42 kendraCtx bedrockKnow emptyEvent).2 =
      [ ExtCall.kendraRetrieve kendra_search_call
      , ExtCall.bedrockInvoke (invoke_llm_request emptyEvent.inputTranscript "CTX") ] ∧
    invoke_llm_request emptyEvent.inputTranscript "CTX" ≠
      invoke_llm_request (pyStrEvent emptyEvent) "CTX" := by
  refine ⟨rfl, ?_⟩
  decide

/-- C2 (amended): for every invocation whose event has an empty
inputTranscript, the search path receives the extracted transcript text
(the empty string), not the event object, as the question value that is
interpolated into the retrieval-grounded prompt. -/
theorem c2_search_receives_transcript (agent : AgentOracle) (kendra : KendraOracle)
    (bedrock : BedrockOracle) (e : Event) (h1 : e.inputTranscript = "") :
    (handler agent kendra bedrock e).2 =
      [ ExtCall.kendraRetrieve kendra_search_call
      , ExtCall.bedrockInvoke
          (invoke_llm_request e.inputTranscript (kendra kendra_search_call)) ] := by
  rw [h1]
  cases hb : bedrock (invoke_llm_request "" (kendra kendra_search_call)) with
  | ok body => simp [handler, kendra_search, invoke_llm, h1, hb]
  | error err => simp [handler, kendra_search, invoke_llm, h1, hb]

/-- Witness for the amended C2 at the concrete empty-transcript event. -/
theorem c2_witness :
    (handler agent42 kendraCtx bedrockKnow emptyEvent).2 =
      [ ExtCall.kendraRetrieve kendra_search_call
      , ExtCall.bedrockInvoke
          (invoke_llm_request emptyEvent.inputTranscript (kendraCtx kendra_search_call)) ] :=
  c2_search_receives_transcript agent42 kendraCtx bedrockKnow emptyEvent rfl

/-- C3 counterexample: at a concrete empty-transcript event whose mocked
LLM response body lacks the "completion" field, the invocation does not
fail: an envelope is produced (with a null content), refuting fatality. -/
theorem c3_counterexample :
    ([] : List (String × String)).lookup "completion" = none ∧
    (handler agent42 kendraCtx bedrockBare emptyEvent).1 =
      .ok (lex_format_response emptyEvent RText.null) := ⟨rfl, rfl⟩

/-- C3 (amended): in the search-grounded path, for every LLM service
response whose parsed JSON body lacks the "completion" field, the
invocation does not fail: `dict.get` yields None and the envelope is
produced with a null message content. -/
theorem c3_missing_completion_not_fatal (agent : AgentOracle) (kendra : KendraOracle)
    (bedrock : BedrockOracle) (e : Event) (body : List (String × String))
    (h1 : e.inputTranscript = "")
    (hb : bedrock (invoke_llm_request e.inputTranscript (kendra kendra_search_call)) = .ok body)
    (hc : body.lookup "completion" = none) :
    (handler agent kendra bedrock e).1 = .ok (lex_format_response e RText.null) := by
  rw [h1] at hb
  simp [handler, kendra_search, invoke_llm, h1, hb, hc]

/-- Witness for the amended C3 with a mocked body without "completion". -/
theorem c3_witness :
    (handler agent42 kendraCtx bedrockBare emptyEvent).1 =
      .ok (lex_format_response emptyEvent RText.null) :=
  c3_missing_completion_not_fatal agent42 kendraCtx bedrockBare emptyEvent [] rfl rfl rfl

/-- C7: for every invocation whose event has an empty inputTranscript,
the router selects the search path, the retrieval service is called with
the fixed index identifier, the fixed literal query string, page number 1
and page size 15, and the "completion" field extracted from the LLM's
JSON response becomes the content of the envelope's message. -/
theorem c7_search_path (agent : AgentOracle) (kendra : KendraOracle)
    (bedrock : BedrockOracle) (e : Event) (body : List (String × String)) (ans : String)
    (h1 : e.inputTranscript = "")
    (hb : bedrock (invoke_llm_request e.inputTranscript (kendra kendra_search_call)) = .ok body)
    (hc : body.lookup "completion" = some ans) :
    (handler agent kendra bedrock e).2 =
      [ ExtCall.kendraRetrieve
          { indexId := "823fed26-38f9-490a-bdfc-d89e19f95a63"
            queryText := "get me wiki"
            pageNumber := 1
            pageSize := 15 }
      , ExtCall.bedrockInvoke
          (invoke_llm_request e.inputTranscript (kendra kendra_search_call)) ] ∧
    (handler agent kendra bedrock e).1 = .ok (lex_format_response e (RText.str ans)) := by
  rw [h1] at hb
  simp only [kendra_search_call] at hb
  constructor <;> simp [handler, kendra_search, invoke_llm, kendra_search_call, h1, hb, hc]

/-- Witness for C7 with the mocked JSON response
`{"completion": "I dont know"}`. -/
theorem c7_witness :
    (handler agent42 kendraCtx bedrockKnow emptyEvent).1 =
      .ok (lex_format_response emptyEvent (RText.str "I dont know")) :=
  (c7_search_path agent42 kendraCtx bedrockKnow emptyEvent
    [("completion", "I dont know")] "I dont know" rfl rfl rfl).2
